import Mathlib

/-!
Verification development for the ChromaSnake repository (grid snake game).

The definitions below are a shallow embedding of the game's core logic:

* `src/src/constants.ts` — grid constants, colors, direction deltas.
  The grid dimensions `GRID_WIDTH`/`GRID_HEIGHT` are derived from the device
  screen at runtime, so every definition here is parameterized by `W H : Nat`.
* `src/src/data/levels.ts` — the 10-level catalog with per-level obstacle
  generators (`src/unnamed/part_001` is a 15-level revision of the same file;
  its levels 11–15 are embedded as `levels15Extra`).
* `src/src/utils/gameUtils.ts` — `getRandomPosition` (food placement).
* `src/src/utils/ScoreTracker.ts` — score tracker (named file), plus the
  revised tracker class appended inside `src/src/utils/gameUtils.ts`
  (embedded as `ScoreTrackerG`); the `Game.tsx` component calls
  `getBaseLevelScore`/`getCurrentAttemptScore`, which exist only in the
  revised class, so the engine embedding uses `ScoreTrackerG`.
* `src/src/components/Game.tsx` — `moveSnake` (the per-tick engine step) and
  `handleGesture` (direction-change handling).

Conventions of the embedding:

* JavaScript numbers used as integers are modeled as `Int` (coordinates,
  scores, lives) or `Nat` (level ids, grid sizes, loop counts).
* The JS `%` operator truncates toward zero; it is modeled by `Int.tmod`.
* `Math.random()` draws are modeled by an explicit stream `env : Nat → Nat`;
  a JS index `Math.floor(Math.random() * n)` (uniform in `[0, n)`) is modeled
  as `env i % n`. Code that never consumes randomness simply ignores `env`.
* `Math.floor(W * f)` for a decimal literal `f = num/den` is modeled as the
  exact rational floor `W * num / den` in `Nat`; the double rounding of `f`
  cannot shift the floor for any realistic grid size.
-/

set_option autoImplicit false

namespace ChromaSnake

/-- A grid cell: integer coordinate pair, as used for snake segments and
obstacles (`{x, y}` objects in the source). -/
@[ext]
structure Pos where
  x : Int
  y : Int
deriving DecidableEq, Repr

/-- The four movement directions (`DIRECTIONS` keys in `constants.ts`). -/
inductive Dir where
  | UP
  | DOWN
  | LEFT
  | RIGHT
deriving DecidableEq, Repr

/-- Unit deltas from `constants.ts`:
`UP {x:0,y:-1}, DOWN {x:0,y:1}, LEFT {x:-1,y:0}, RIGHT {x:1,y:0}`. -/
def DIRECTIONS : Dir → Pos
  | .UP => ⟨0, -1⟩
  | .DOWN => ⟨0, 1⟩
  | .LEFT => ⟨-1, 0⟩
  | .RIGHT => ⟨1, 0⟩

/-- The five food colors: `Object.values(COLORS)` of `constants.ts` with
`GREY` and `BLACK` filtered out, in insertion order (`Game.tsx` food spawn). -/
def foodColors : List String :=
  ["#FF0000", "#FFA500", "#FFFF00", "#00FF00", "#0000FF"]

/-- Food color choice `[Math.floor(Math.random() * 5)]` on the filtered color
list; the random draw is modeled by `r`, the index `r % 5` is always in
bounds so the `getD` default is never used. -/
def pickFoodColor (r : Nat) : String :=
  foodColors.getD (r % 5) "#FF0000"

/-- Does the JS test `list.some(q => q.x === p.x && q.y === p.y)` hold?
Shared by the collision checks and food placement filters. -/
def hasCell (l : List Pos) (p : Pos) : Bool :=
  l.any fun q => q.x == p.x && q.y == p.y

theorem hasCell_eq_true_iff_mem (l : List Pos) (p : Pos) :
    hasCell l p = true ↔ p ∈ l := by
  simp only [hasCell, List.any_eq_true, Bool.and_eq_true, beq_iff_eq]
  constructor
  · rintro ⟨q, hq, hx, hy⟩
    have : q = p := Pos.ext hx hy
    exact this ▸ hq
  · intro hp
    exact ⟨p, hp, rfl, rfl⟩

theorem hasCell_eq_false_iff_not_mem (l : List Pos) (p : Pos) :
    hasCell l p = false ↔ p ∉ l := by
  rw [← Bool.not_eq_true, not_iff_not]
  exact hasCell_eq_true_iff_mem l p

/-! ### Food placement: `getRandomPosition` (`src/src/utils/gameUtils.ts`) -/

/-- All grid cells in the enumeration order of `getRandomPosition`
(`x` outer loop from `0` to `W-1`, `y` inner loop from `0` to `H-1`).
The loop body re-checks `0 ≤ x < W ∧ 0 ≤ y < H` before testing the cell;
that re-check is a tautology for these ranges and is dropped. -/
def allCells (W H : Nat) : List Pos :=
  (List.range W).flatMap fun (x : Nat) =>
    (List.range H).map fun (y : Nat) => ⟨(x : Int), (y : Int)⟩

/-- The cell test of `getRandomPosition`: not on an obstacle, not on
the snake. -/
def isFreeCell (obstacles snake : List Pos) (p : Pos) : Bool :=
  !hasCell obstacles p && !hasCell snake p

/-- `availablePositions` as built by the first loop of `getRandomPosition`. -/
def availablePositions (W H : Nat) (obstacles snake : List Pos) : List Pos :=
  (allCells W H).filter (isFreeCell obstacles snake)

/-- The first fallback search of `getRandomPosition`: scan
`1 ≤ x < W-1` (outer), `1 ≤ y < H-1` (inner) for a free cell. -/
def fallbackInnerSearch (W H : Nat) (obstacles snake : List Pos) :
    Option Pos :=
  ((List.range' 1 (W - 2)).flatMap fun (x : Nat) =>
    (List.range' 1 (H - 2)).map fun (y : Nat) =>
      (⟨(x : Int), (y : Int)⟩ : Pos)).find?
    (isFreeCell obstacles snake)

/-- The second fallback of `getRandomPosition`: spiral out from the grid
center (`radius` from `1` to `max W H - 1`, `dx` outer, `dy` inner, each from
`-radius` to `radius`), skipping out-of-bounds cells, returning the first
free cell found. -/
def spiralSearch (W H : Nat) (obstacles snake : List Pos) : Option Pos :=
  let centerX : Int := (W / 2 : Nat)
  let centerY : Int := (H / 2 : Nat)
  ((List.range' 1 (max W H - 1)).flatMap fun (radius : Nat) =>
    (List.range (2 * radius + 1)).flatMap fun (i : Nat) =>
      (List.range (2 * radius + 1)).map fun (j : Nat) =>
        (⟨centerX + i - radius, centerY + j - radius⟩ : Pos)).find?
    fun p =>
      decide (0 ≤ p.x) && decide (p.x < (W : Int)) &&
      decide (0 ≤ p.y) && decide (p.y < (H : Int)) &&
      isFreeCell obstacles snake p

/-- `getRandomPosition(obstacles, snake)` from `gameUtils.ts`. The single
`Math.random()` draw is modeled by `r`; the random index
`Math.floor(Math.random() * len)` is modeled as `r % len`. When the grid is
degenerate (`W = 0 ∨ H = 0`, the JS guard `GRID_WIDTH <= 0`) or every search
fails, the function returns the fixed fallback `(1, 1)`. -/
def getRandomPosition (W H : Nat) (obstacles snake : List Pos) (r : Nat) :
    Pos :=
  if W = 0 ∨ H = 0 then ⟨1, 1⟩
  else
    let avail := availablePositions W H obstacles snake
    if h : 0 < avail.length then
      avail.get ⟨r % avail.length, Nat.mod_lt r h⟩
    else
      match fallbackInnerSearch W H obstacles snake with
      | some p => p
      | none =>
        match spiralSearch W H obstacles snake with
        | some p => p
        | none => ⟨1, 1⟩

theorem mem_availablePositions_free {W H : Nat} {obstacles snake : List Pos}
    {p : Pos} (hp : p ∈ availablePositions W H obstacles snake) :
    p ∉ obstacles ∧ p ∉ snake := by
  have hfree := List.of_mem_filter hp
  simp only [isFreeCell, Bool.and_eq_true, Bool.not_eq_true'] at hfree
  exact ⟨(hasCell_eq_false_iff_not_mem _ _).mp hfree.1,
    (hasCell_eq_false_iff_not_mem _ _).mp hfree.2⟩

theorem availablePositions_eq_nil_no_free {W H : Nat}
    {obstacles snake : List Pos}
    (h : availablePositions W H obstacles snake = []) :
    ∀ p ∈ allCells W H, isFreeCell obstacles snake p = false := by
  intro p hp
  by_contra hne
  have : isFreeCell obstacles snake p = true := by
    revert hne
    cases isFreeCell obstacles snake p <;> simp
  have : p ∈ availablePositions W H obstacles snake :=
    List.mem_filter.mpr ⟨hp, this⟩
  rw [h] at this
  exact absurd this (List.not_mem_nil p)

theorem mem_allCells_iff {W H : Nat} {p : Pos} :
    p ∈ allCells W H ↔
      0 ≤ p.x ∧ p.x < (W : Int) ∧ 0 ≤ p.y ∧ p.y < (H : Int) := by
  constructor
  · intro hp
    rcases List.mem_flatMap.mp hp with ⟨x, hx, hmem⟩
    rcases List.mem_map.mp hmem with ⟨y, hy, hpy⟩
    rw [List.mem_range] at hx hy
    cases hpy
    refine ⟨Int.ofNat_nonneg x, ?_, Int.ofNat_nonneg y, ?_⟩
    · show (x : Int) < (W : Int)
      omega
    · show (y : Int) < (H : Int)
      omega
  · rintro ⟨hx0, hxW, hy0, hyH⟩
    refine List.mem_flatMap.mpr ⟨p.x.toNat, List.mem_range.mpr (by omega),
      List.mem_map.mpr ⟨p.y.toNat, List.mem_range.mpr (by omega), ?_⟩⟩
    ext
    · show (p.x.toNat : Int) = p.x
      omega
    · show (p.y.toNat : Int) = p.y
      omega

theorem getRandomPosition_mem_avail {W H : Nat} {obstacles snake : List Pos}
    (r : Nat) (h : 0 < (availablePositions W H obstacles snake).length) :
    getRandomPosition W H obstacles snake r ∈
      availablePositions W H obstacles snake := by
  have hW : ¬(W = 0 ∨ H = 0) := by
    rintro (rfl | rfl) <;>
      simp [availablePositions, allCells, List.flatMap] at h
  rw [getRandomPosition, if_neg hW, dif_pos h]
  exact List.get_mem _ _ _

theorem getRandomPosition_of_no_free {W H : Nat} {obstacles snake : List Pos}
    (r : Nat) (h : availablePositions W H obstacles snake = []) :
    getRandomPosition W H obstacles snake r = ⟨1, 1⟩ := by
  rw [getRandomPosition]
  by_cases hWH : W = 0 ∨ H = 0
  · rw [if_pos hWH]
  · rw [if_neg hWH]
    have hlen : ¬0 < (availablePositions W H obstacles snake).length := by
      rw [h]; simp
    rw [dif_neg hlen]
    have hfree := availablePositions_eq_nil_no_free h
    have hinner : fallbackInnerSearch W H obstacles snake = none := by
      rw [fallbackInnerSearch, List.find?_eq_none]
      intro p hp
      rcases List.mem_flatMap.mp hp with ⟨x, hx, hmem⟩
      rcases List.mem_map.mp hmem with ⟨y, hy, hpy⟩
      rw [List.mem_range'_1] at hx hy
      cases hpy
      intro hcontra
      have hrange :
          (⟨(x : Int), (y : Int)⟩ : Pos) ∈ allCells W H := by
        refine mem_allCells_iff.mpr
          ⟨Int.ofNat_nonneg x, ?_, Int.ofNat_nonneg y, ?_⟩
        · show (x : Int) < (W : Int)
          omega
        · show (y : Int) < (H : Int)
          omega
      rw [hfree _ hrange] at hcontra
      exact Bool.false_ne_true hcontra
    have hspiral : spiralSearch W H obstacles snake = none := by
      rw [spiralSearch, List.find?_eq_none]
      intro p hp hcontra
      simp only [Bool.and_eq_true, decide_eq_true_eq] at hcontra
      obtain ⟨⟨⟨⟨h1, h2⟩, h3⟩, h4⟩, h5⟩ := hcontra
      rw [hfree _ (mem_allCells_iff.mpr ⟨h1, h2, h3, h4⟩)] at h5
      exact Bool.false_ne_true h5
    rw [hinner, hspiral]

/-- **C3.** Food placement: for every obstacle list and snake body,
`getRandomPosition` (1) returns a cell outside the obstacles and outside the
snake whenever at least one free cell exists, for every random draw `r`;
(2) when exactly one free cell exists it returns exactly that cell on every
call; and (3) when zero free cells exist it returns the fixed deterministic
fallback cell `(1, 1)` (it is a total function, so it cannot throw). -/
theorem getRandomPosition_spec :
    (∀ (W H : Nat) (obstacles snake : List Pos) (r : Nat),
      availablePositions W H obstacles snake ≠ [] →
        getRandomPosition W H obstacles snake r ∉ obstacles ∧
        getRandomPosition W H obstacles snake r ∉ snake) ∧
    (∀ (W H : Nat) (obstacles snake : List Pos) (r : Nat) (c : Pos),
      availablePositions W H obstacles snake = [c] →
        getRandomPosition W H obstacles snake r = c) ∧
    (∀ (W H : Nat) (obstacles snake : List Pos) (r : Nat),
      availablePositions W H obstacles snake = [] →
        getRandomPosition W H obstacles snake r = ⟨1, 1⟩) := by
  refine ⟨?_, ?_, ?_⟩
  · intro W H obstacles snake r hne
    have hlen : 0 < (availablePositions W H obstacles snake).length :=
      List.length_pos.mpr hne
    exact mem_availablePositions_free (getRandomPosition_mem_avail r hlen)
  · intro W H obstacles snake r c hone
    have hmem := getRandomPosition_mem_avail r
      (by rw [hone]; exact Nat.zero_lt_one)
    rw [hone, List.mem_singleton] at hmem
    exact hmem
  · intro W H obstacles snake r h
    exact getRandomPosition_of_no_free r h

/-- Witness for C3 on a concrete 3×3 grid: obstacles and the snake cover all
cells except `(2, 1)`, which is returned for two different random draws;
and on a fully covered 2×1 grid the fallback `(1, 1)` is returned. -/
theorem getRandomPosition_spec_witness :
    getRandomPosition 3 3 [⟨0, 0⟩, ⟨0, 1⟩, ⟨0, 2⟩, ⟨1, 0⟩, ⟨1, 1⟩, ⟨1, 2⟩]
      [⟨2, 0⟩, ⟨2, 2⟩] 0 = ⟨2, 1⟩ ∧
    getRandomPosition 3 3 [⟨0, 0⟩, ⟨0, 1⟩, ⟨0, 2⟩, ⟨1, 0⟩, ⟨1, 1⟩, ⟨1, 2⟩]
      [⟨2, 0⟩, ⟨2, 2⟩] 7 = ⟨2, 1⟩ ∧
    getRandomPosition 2 1 [⟨0, 0⟩, ⟨1, 0⟩] [] 5 = ⟨1, 1⟩ := by
  refine ⟨?_, ?_, ?_⟩
  · exact getRandomPosition_spec.2.1 3 3 _ _ 0 ⟨2, 1⟩ (by decide)
  · exact getRandomPosition_spec.2.1 3 3 _ _ 7 ⟨2, 1⟩ (by decide)
  · exact getRandomPosition_spec.2.2 2 1 _ _ 5 (by decide)

/-! ### Level catalog (`src/src/data/levels.ts`, revision `src/unnamed/part_001`)

Each `generateObstacles` closure reads the grid constants and nothing else;
no generator calls `Math.random` or touches mutable state. To make that a
provable hyperproperty rather than a modeling artifact, the embedded
generator type still receives the ambient random stream `Nat → Nat` (the
only effectful capability the surrounding code uses) and the translations
simply never consume it, exactly as the source never calls `Math.random`. -/

/-- `Math.floor(v * (num/den))` on a nonnegative `v`, as exact rational
floor. -/
def pct (v : Nat) (num den : Nat) : Int :=
  ((v * num / den : Nat) : Int)

/-- A JS loop `for (c = a; c < b; c += step)` producing its loop-variable
values. A `step` of `0` (which would loop forever in JS; reachable only for
degenerate grids in the level-7 chamber loop) is modeled as an empty range. -/
def jsRange (a b : Int) (step : Nat) : List Int :=
  (List.range (((b - a).toNat + step - 1) / step)).map fun i => a + step * i

/-- A JS loop `for (c = a; c <= b; c += step)`. -/
def jsRangeLe (a b : Int) (step : Nat) : List Int :=
  jsRange a (b + 1) step

/-- `addBlockAtPosition` from `levels.ts`: a 2×2 block at `(startX, startY)`,
dropped entirely when the anchor fails the bounds check
`0 ≤ startX < W-1 ∧ 0 ≤ startY < H-1`. Push order: `(x,y), (x,y+1),
(x+1,y), (x+1,y+1)` (outer `i` over x, inner `j` over y). -/
def addBlockAtPosition (W H : Nat) (startX startY : Int) : List Pos :=
  if startX < 0 ∨ startX ≥ (W : Int) - 1 ∨ startY < 0 ∨ startY ≥ (H : Int) - 1
  then []
  else [⟨startX, startY⟩, ⟨startX, startY + 1⟩,
        ⟨startX + 1, startY⟩, ⟨startX + 1, startY + 1⟩]

/-- Level 1 "Training Grounds": no obstacles. -/
def level1Obstacles (_W _H : Nat) : List Pos := []

/-- Level 2 "First Blocks": two corner blocks. -/
def level2Obstacles (W H : Nat) : List Pos :=
  addBlockAtPosition W H (pct W 25 100 - 1) (pct H 25 100 - 1) ++
  addBlockAtPosition W H (pct W 75 100 - 1) (pct H 75 100 - 1)

/-- Level 3 "Four Corners": blocks in all four corners. -/
def level3Obstacles (W H : Nat) : List Pos :=
  addBlockAtPosition W H (pct W 25 100 - 1) (pct H 25 100 - 1) ++
  addBlockAtPosition W H (pct W 25 100 - 1) (pct H 75 100 - 1) ++
  addBlockAtPosition W H (pct W 75 100 - 1) (pct H 25 100 - 1) ++
  addBlockAtPosition W H (pct W 75 100 - 1) (pct H 75 100 - 1)

/-- Level 4 "Four Corners Plus": four corners plus a center block. -/
def level4Obstacles (W H : Nat) : List Pos :=
  level3Obstacles W H ++
  addBlockAtPosition W H (pct W 50 100 - 1) (pct H 50 100 - 1)

/-- Level 5 "Zigzag Corridor". -/
def level5Obstacles (W H : Nat) : List Pos :=
  let rightBarrierX := pct W 66 100 - 1
  ((jsRange 2 (pct H 40 100) 2).flatMap fun y =>
    addBlockAtPosition W H (pct W 33 100 - 1) y) ++
  ((jsRange (pct H 40 100) (pct H 60 100) 2).flatMap fun y =>
    addBlockAtPosition W H (pct W 50 100 - 1) y) ++
  ((jsRange (pct H 60 100) ((H : Int) - 2) 2).flatMap fun y =>
    addBlockAtPosition W H rightBarrierX y) ++
  addBlockAtPosition W H (pct W 20 100 - 1) (pct H 30 100 - 1) ++
  addBlockAtPosition W H (rightBarrierX + 2) (pct H 70 100)

/-- Level 6 "Spiral Path": four wall segments concatenated, then every
other position kept (`index % 2 === 0` over the concatenated list). -/
def level6Obstacles (W H : Nat) : List Pos :=
  let spiralPositions : List Pos :=
    ((List.range (W * 80 / 100)).map fun (i : Nat) =>
      (⟨pct W 10 100 + i, pct H 20 100⟩ : Pos)) ++
    ((List.range (H * 60 / 100)).map fun (i : Nat) =>
      (⟨pct W 80 100, pct H 20 100 + i⟩ : Pos)) ++
    ((List.range (W * 60 / 100)).map fun (i : Nat) =>
      (⟨pct W 80 100 - i, pct H 80 100⟩ : Pos)) ++
    ((List.range (H * 30 / 100)).map fun (i : Nat) =>
      (⟨pct W 20 100, pct H 80 100 - i⟩ : Pos))
  (spiralPositions.enum.filter fun p => p.1 % 2 = 0).map fun p => p.2

/-- Level 7 "Maze Chambers". The outer loop steps by `⌊0.33·W⌋`, which is a
computed stride (`0` only on grids with `W ≤ 3`, where the JS loop would not
terminate; modeled as the empty range). -/
def level7Obstacles (W H : Nat) : List Pos :=
  ((jsRangeLe (pct W 33 100) (pct W 66 100) (W * 33 / 100)).flatMap fun x =>
    (jsRange 2 ((H : Int) - 2) 1).flatMap fun y =>
      if (y > pct H 30 100 ∧ y < pct H 40 100) ∨
         (y > pct H 60 100 ∧ y < pct H 70 100) then []
      else [⟨x, y⟩]) ++
  ((jsRange 2 (pct W 33 100 - 2) 1).map fun x =>
    (⟨x, pct H 50 100⟩ : Pos)) ++
  ((jsRange (pct W 33 100 + 2) (pct W 66 100 - 2) 1).flatMap fun x =>
    if x.tmod 3 = 0 then []
    else [⟨x, pct H 30 100⟩, ⟨x, pct H 70 100⟩]) ++
  ((jsRange (pct W 66 100 + 2) ((W : Int) - 2) 1).map fun x =>
    (⟨x, pct H 50 100⟩ : Pos))

/-- Level 8 "H Pattern". -/
def level8Obstacles (W H : Nat) : List Pos :=
  let leftColumnX := pct W 25 100 - 1
  let rightColumnX := pct W 75 100 - 1
  let midY := pct H 50 100 - 1
  ((jsRangeLe (pct H 25 100) (pct H 75 100) 3).flatMap fun y =>
    addBlockAtPosition W H leftColumnX y) ++
  ((jsRangeLe (pct H 25 100) (pct H 75 100) 3).flatMap fun y =>
    addBlockAtPosition W H rightColumnX y) ++
  ((jsRangeLe (leftColumnX + 2) (pct W 65 100) 1).flatMap fun x =>
    [⟨x, midY⟩, ⟨x, midY + 1⟩])

/-- Level 9 "Mini Maze". -/
def level9Obstacles (W H : Nat) : List Pos :=
  ((jsRange 2 ((H : Int) - 2) 2).flatMap fun y =>
    if y.tmod 4 = 0 then []
    else addBlockAtPosition W H (pct W 1 3 - 1) y ++
         addBlockAtPosition W H (pct W 2 3 - 1) y) ++
  ((jsRange 2 ((W : Int) - 2) 2).flatMap fun x =>
    if x.tmod 4 = 0 then []
    else addBlockAtPosition W H x (pct H 1 3 - 1) ++
         addBlockAtPosition W H x (pct H 2 3 - 1))

/-- Level 10 "Maze Master". -/
def level10Obstacles (W H : Nat) : List Pos :=
  ((jsRange 4 ((W : Int) - 4) 1).flatMap fun x =>
    if x = pct W 1 2 then []
    else [⟨x, 4⟩, ⟨x, (H : Int) - 4 - 1⟩]) ++
  ((jsRange 4 ((H : Int) - 4) 1).flatMap fun y =>
    [⟨4, y⟩, ⟨(W : Int) - 4 - 1, y⟩]) ++
  ((jsRange 8 ((W : Int) - 8) 1).flatMap fun x =>
    if x = pct W 1 2 - 3 ∨ x = pct W 1 2 + 3 then []
    else [⟨x, 8⟩, ⟨x, (H : Int) - 8 - 1⟩]) ++
  ((jsRange 8 ((H : Int) - 8) 1).flatMap fun y =>
    if y = pct H 1 2 then []
    else [⟨8, y⟩, ⟨(W : Int) - 8 - 1, y⟩]) ++
  addBlockAtPosition W H (pct W 30 100 - 1) (pct H 30 100 - 1) ++
  addBlockAtPosition W H (pct W 70 100 - 1) (pct H 70 100 - 1) ++
  addBlockAtPosition W H (pct W 70 100 - 1) (pct H 30 100 - 1)

/-- A level definition (`LevelConfig` in `levels.ts`): id, name, required
food, obstacle generator, and the `getSpeed()` value in milliseconds.
The generator is parameterized by the grid size and the ambient random
stream (which no authored generator consumes). -/
structure LevelConfig where
  id : Nat
  name : String
  requiredFood : Nat
  generateObstacles : Nat → Nat → (Nat → Nat) → List Pos
  getSpeed : Int

/-- The 10-level catalog of `src/src/data/levels.ts`, in order
(`BASE_SPEED = 200`, speeds `BASE_SPEED - 10·id`). -/
def levels : List LevelConfig :=
  [⟨1, "Training Grounds", 3, fun W H _ => level1Obstacles W H, 190⟩,
   ⟨2, "First Blocks", 4, fun W H _ => level2Obstacles W H, 180⟩,
   ⟨3, "Four Corners", 5, fun W H _ => level3Obstacles W H, 170⟩,
   ⟨4, "Four Corners Plus", 6, fun W H _ => level4Obstacles W H, 160⟩,
   ⟨5, "Zigzag Corridor", 7, fun W H _ => level5Obstacles W H, 150⟩,
   ⟨6, "Spiral Path", 8, fun W H _ => level6Obstacles W H, 140⟩,
   ⟨7, "Maze Chambers", 9, fun W H _ => level7Obstacles W H, 130⟩,
   ⟨8, "H Pattern", 10, fun W H _ => level8Obstacles W H, 120⟩,
   ⟨9, "Mini Maze", 11, fun W H _ => level9Obstacles W H, 110⟩,
   ⟨10, "Maze Master", 12, fun W H _ => level10Obstacles W H, 100⟩]

/-- `getLevelById` (`levels.find(...)`); the JS version throws on a lookup
miss, modeled as `none`. -/
def getLevelById? (id : Nat) : Option LevelConfig :=
  levels.find? fun level => level.id = id

/-- `getLevelById(id).requiredFood` for a valid id; total with default `0`
for ids on which the JS lookup would throw (never reached in the proofs
below, which stay on valid ids). -/
def requiredFoodOf (id : Nat) : Nat :=
  ((getLevelById? id).map LevelConfig.requiredFood).getD 0

/-- `getLevelCount()` — the catalog length. -/
def getLevelCount : Nat := levels.length

/-- Level 11 "Double Box Maze" (`src/unnamed/part_001` only). -/
def level11Obstacles (W H : Nat) : List Pos :=
  ((jsRange 3 ((W : Int) - 3) 1).flatMap fun x =>
    if x ≠ pct W 1 2 then [⟨x, 3⟩, ⟨x, (H : Int) - 3 - 1⟩] else []) ++
  ((jsRange 3 ((H : Int) - 3) 1).flatMap fun y =>
    [⟨3, y⟩, ⟨(W : Int) - 3 - 1, y⟩]) ++
  ((jsRange 7 ((W : Int) - 7) 1).flatMap fun x =>
    if x ≠ pct W 1 2 - 2 then [⟨x, 7⟩, ⟨x, (H : Int) - 7 - 1⟩] else []) ++
  ((jsRange 7 ((H : Int) - 7) 1).flatMap fun y =>
    if y ≠ pct H 1 2 + 2 then [⟨7, y⟩, ⟨(W : Int) - 7 - 1, y⟩] else []) ++
  addBlockAtPosition W H (pct W 25 100) (pct H 25 100) ++
  addBlockAtPosition W H (pct W 75 100 - 2) (pct H 75 100 - 2)

/-- Level 12 "Triple Box Challenge" (`part_001` only): three concentric
boxes, margins `[3, 6, 9]` iterated with their index. -/
def level12Obstacles (W H : Nat) : List Pos :=
  ([3, 6, 9] : List Int).enum.flatMap fun mi =>
    let index : Int := mi.1
    let margin : Int := mi.2
    ((jsRange margin ((W : Int) - margin) 1).flatMap fun x =>
      if x ≠ pct W 1 2 + index - 1 then
        [⟨x, margin⟩, ⟨x, (H : Int) - margin - 1⟩]
      else []) ++
    ((jsRange margin ((H : Int) - margin) 1).flatMap fun y =>
      if y ≠ pct H 1 2 - index + 1 then
        [⟨margin, y⟩, ⟨(W : Int) - margin - 1, y⟩]
      else [])

/-- Level 13 "Cross Box Maze" (`part_001` only). -/
def level13Obstacles (W H : Nat) : List Pos :=
  let mid := pct W 1 2
  ((jsRange 3 ((W : Int) - 3) 1).flatMap fun x =>
    if x ≠ pct W 25 100 ∧ x ≠ pct W 75 100 then
      [⟨x, 3⟩, ⟨x, (H : Int) - 3 - 1⟩]
    else []) ++
  ((jsRange 3 ((H : Int) - 3) 1).flatMap fun y =>
    if y ≠ pct H 25 100 ∧ y ≠ pct H 75 100 then
      [⟨3, y⟩, ⟨(W : Int) - 3 - 1, y⟩]
    else []) ++
  ((jsRange 6 ((W : Int) - 6) 1).flatMap fun x =>
    if 1 < |x - mid| then [⟨x, mid - 1⟩, ⟨x, mid⟩] else []) ++
  ((jsRange 6 ((H : Int) - 6) 1).flatMap fun y =>
    if 1 < |y - pct H 1 2| then [⟨mid - 1, y⟩, ⟨mid, y⟩] else []) ++
  (([⟨5, 5⟩, ⟨(W : Int) - 8, 5⟩, ⟨5, (H : Int) - 8⟩,
     ⟨(W : Int) - 8, (H : Int) - 8⟩] : List Pos).flatMap fun p =>
    addBlockAtPosition W H p.x p.y ++
    [⟨p.x - 1, p.y + 1⟩, ⟨p.x + 2, p.y + 1⟩])

/-- Level 14 "Maze Chambers Elite" (`part_001` only). -/
def level14Obstacles (W H : Nat) : List Pos :=
  let thirds := pct W 1 3
  ((jsRange 3 ((W : Int) - 3) 1).flatMap fun x =>
    if x ≠ pct W 25 100 ∧ x ≠ pct W 75 100 then
      [⟨x, 3⟩, ⟨x, (H : Int) - 3 - 1⟩]
    else []) ++
  ((jsRange 3 ((H : Int) - 3) 1).flatMap fun y =>
    if y ≠ pct H 25 100 ∧ y ≠ pct H 75 100 then
      [⟨3, y⟩, ⟨(W : Int) - 3 - 1, y⟩]
    else []) ++
  ((jsRange 5 ((H : Int) - 5) 1).flatMap fun y =>
    if y.tmod 5 ≠ 0 then
      ⟨thirds, y⟩ :: (if y.tmod 3 ≠ 0 then [⟨thirds * 2, y⟩] else [])
    else []) ++
  (([pct H 25 100, pct H 50 100, pct H 75 100] : List Int).enum.flatMap
    fun iy =>
      (jsRange 5 ((W : Int) - 5) 1).flatMap fun x =>
        if x = thirds + 1 ∨ x = thirds * 2 - 1 then []
        else if x.tmod (4 + (iy.1 : Int)) ≠ 0 then [⟨x, iy.2⟩] else []) ++
  (([⟨pct W 20 100, pct H 30 100⟩, ⟨pct W 50 100, pct H 40 100⟩,
     ⟨pct W 80 100, pct H 60 100⟩, ⟨pct W 30 100, pct H 70 100⟩] :
      List Pos).flatMap fun p => addBlockAtPosition W H p.x p.y)

/-- Level 15 "Ultimate Labyrinth" (`part_001` only): nested boxes with
patterned gaps, diagonal blocks at 25%/50%/75%, and a central cross. -/
def level15Obstacles (W H : Nat) : List Pos :=
  let mid := pct W 1 2
  (([2, 5, 8] : List Int).enum.flatMap fun mi =>
    let index : Int := mi.1
    let margin : Int := mi.2
    ((jsRange margin ((W : Int) - margin) 1).flatMap fun x =>
      if (x + index).tmod 3 ≠ 0 then
        [⟨x, margin⟩, ⟨x, (H : Int) - margin - 1⟩]
      else []) ++
    ((jsRange margin ((H : Int) - margin) 1).flatMap fun y =>
      if (y + index).tmod 3 ≠ 0 then
        [⟨margin, y⟩, ⟨(W : Int) - margin - 1, y⟩]
      else [])) ++
  (addBlockAtPosition W H (pct W 25 100 - 1) (pct H 25 100 - 1) ++
   addBlockAtPosition W H (pct W 50 100 - 1) (pct H 50 100 - 1) ++
   addBlockAtPosition W H (pct W 75 100 - 1) (pct H 75 100 - 1)) ++
  ((jsRange 4 ((W : Int) - 4) 1).flatMap fun i =>
    if 1 < |i - mid| then [⟨i, mid⟩, ⟨mid, i⟩] else [])

/-- The 15-level catalog of the `src/unnamed/part_001` revision: levels
1–10 are identical to `levels`, with five extra levels (speeds continue
at `BASE_SPEED - 110 … - 150`). -/
def levels15 : List LevelConfig :=
  levels ++
  [⟨11, "Double Box Maze", 13, fun W H _ => level11Obstacles W H, 90⟩,
   ⟨12, "Triple Box Challenge", 14, fun W H _ => level12Obstacles W H, 80⟩,
   ⟨13, "Cross Box Maze", 15, fun W H _ => level13Obstacles W H, 70⟩,
   ⟨14, "Maze Chambers Elite", 16, fun W H _ => level14Obstacles W H, 60⟩,
   ⟨15, "Ultimate Labyrinth", 17, fun W H _ => level15Obstacles W H, 50⟩]

/-- **C9.** Obstacle generation is pure and deterministic in the level:
for every entry of the 10-level catalog (and of the 15-level revision),
any two calls of that level's obstacle generator — under arbitrary, possibly
different ambient random streams — return the same list of obstacle cells.
The generators take no other input than the grid size, so there is no
dependence on mutable state or randomness. -/
theorem generateObstacles_deterministic :
    (∀ lvl ∈ levels, ∀ (W H : Nat) (env1 env2 : Nat → Nat),
      lvl.generateObstacles W H env1 = lvl.generateObstacles W H env2) ∧
    (∀ lvl ∈ levels15, ∀ (W H : Nat) (env1 env2 : Nat → Nat),
      lvl.generateObstacles W H env1 = lvl.generateObstacles W H env2) := by
  constructor
  · intro lvl hl
    fin_cases hl <;> intros <;> rfl
  · intro lvl hl
    fin_cases hl <;> intros <;> rfl

/-- Witness for C9: level 3 of the catalog, on a 20×16 grid, under two
different random streams. -/
theorem generateObstacles_deterministic_witness :
    (levels.get ⟨2, by decide⟩).generateObstacles 20 16 (fun _ => 0) =
      (levels.get ⟨2, by decide⟩).generateObstacles 20 16 (fun _ => 1) :=
  generateObstacles_deterministic.1 _ (List.get_mem levels 2 (by decide))
    20 16 (fun _ => 0) (fun _ => 1)

/-! ### Score trackers

`src/src/utils/ScoreTracker.ts` (the named file) tracks a running
`totalFoodEaten`; the revision of the same class appended in
`src/src/utils/gameUtils.ts` adds `baseLevelScore`/`currentAttemptScore`
and the `getBaseLevelScore`/`getCurrentAttemptScore` accessors that
`Game.tsx` calls, so the engine embedding below uses the revised class
(`ScoreTrackerG`). JS numbers are modeled as `Int` (the remaining-food
counter can go below zero on the final level). -/

/-- State of the `ScoreTracker` class in `src/src/utils/ScoreTracker.ts`. -/
structure ScoreTracker where
  currentScore : Int
  highScore : Int
  foodEatenCount : Int
  currentLevel : Nat
  remainingFoodInLevel : Int
  totalFoodEaten : Int
deriving DecidableEq, Repr

namespace ScoreTracker

/-- The constructor: level 1, no food eaten. -/
def init : ScoreTracker :=
  ⟨0, 0, 0, 1, (requiredFoodOf 1 : Int), 0⟩

/-- `setLevel(level)`. -/
def setLevel (t : ScoreTracker) (level : Nat) : ScoreTracker :=
  { t with currentLevel := level,
           remainingFoodInLevel := (requiredFoodOf level : Int) }

/-- `incrementFoodEaten()`: bump the counters, decrement the remaining
food and report the level-complete signal
(`remainingFoodInLevel === 0 && currentLevel < getLevelCount()`). -/
def incrementFoodEaten (t : ScoreTracker) : Bool × ScoreTracker :=
  let t1 :=
    { t with foodEatenCount := t.foodEatenCount + 1,
             totalFoodEaten := t.totalFoodEaten + 1,
             remainingFoodInLevel := t.remainingFoodInLevel - 1 }
  (decide (t1.remainingFoodInLevel = 0) &&
     decide (t1.currentLevel < getLevelCount), t1)

/-- `advanceToNextLevel()`. -/
def advanceToNextLevel (t : ScoreTracker) : ScoreTracker :=
  if t.currentLevel < getLevelCount then
    { t with currentLevel := t.currentLevel + 1,
             remainingFoodInLevel := (requiredFoodOf (t.currentLevel + 1) : Int) }
  else t

/-- `getCurrentScore()` — returns `totalFoodEaten`. -/
def getCurrentScore (t : ScoreTracker) : Int := t.totalFoodEaten

/-- `setScore(score)`. -/
def setScore (t : ScoreTracker) (score : Int) : ScoreTracker :=
  { t with totalFoodEaten := score,
           foodEatenCount := 0,
           remainingFoodInLevel := (requiredFoodOf t.currentLevel : Int) }

/-- `reset(selectedLevel)` — total score cleared only when starting from
level 1. -/
def reset (t : ScoreTracker) (selectedLevel : Nat) : ScoreTracker :=
  let t1 :=
    { t with currentLevel := selectedLevel,
             remainingFoodInLevel := (requiredFoodOf selectedLevel : Int),
             foodEatenCount := 0 }
  if selectedLevel = 1 then
    { t1 with totalFoodEaten := 0, currentScore := 0 }
  else t1

end ScoreTracker

/-- State of the revised `ScoreTracker` class appended in
`src/src/utils/gameUtils.ts` (the variant `Game.tsx` is written against). -/
structure ScoreTrackerG where
  currentScore : Int
  highScore : Int
  foodEatenCount : Int
  currentLevel : Nat
  remainingFoodInLevel : Int
  totalFoodEaten : Int
  baseLevelScore : Int
  currentAttemptScore : Int
deriving DecidableEq, Repr

namespace ScoreTrackerG

/-- `getMinimumScoreForLevel(level)`: sum of `requiredFood` over levels
`1 … level-1`. -/
def getMinimumScoreForLevel (level : Nat) : Int :=
  ((List.range' 1 (level - 1)).map fun i => (requiredFoodOf i : Int)).sum

/-- The constructor: level 1, all counters zero. -/
def init : ScoreTrackerG :=
  ⟨0, 0, 0, 1, (requiredFoodOf 1 : Int), 0, 0, 0⟩

/-- `setLevel(level)`. -/
def setLevel (t : ScoreTrackerG) (level : Nat) : ScoreTrackerG :=
  { t with currentLevel := level,
           remainingFoodInLevel := (requiredFoodOf level : Int),
           foodEatenCount := 0,
           baseLevelScore := getMinimumScoreForLevel level,
           currentAttemptScore := 0,
           totalFoodEaten := getMinimumScoreForLevel level }

/-- `incrementFoodEaten()`: bump the attempt counter, recompute
`totalFoodEaten = baseLevelScore + currentAttemptScore`, decrement the
remaining food, report the level-complete signal. -/
def incrementFoodEaten (t : ScoreTrackerG) : Bool × ScoreTrackerG :=
  let t1 :=
    { t with foodEatenCount := t.foodEatenCount + 1,
             currentAttemptScore := t.currentAttemptScore + 1,
             totalFoodEaten := t.baseLevelScore + (t.currentAttemptScore + 1),
             remainingFoodInLevel := t.remainingFoodInLevel - 1 }
  (decide (t1.remainingFoodInLevel = 0) &&
     decide (t1.currentLevel < getLevelCount), t1)

/-- `advanceToNextLevel()` — the new base score absorbs all fruit eaten. -/
def advanceToNextLevel (t : ScoreTrackerG) : ScoreTrackerG :=
  if t.currentLevel < getLevelCount then
    { t with currentLevel := t.currentLevel + 1,
             remainingFoodInLevel := (requiredFoodOf (t.currentLevel + 1) : Int),
             foodEatenCount := 0,
             baseLevelScore := t.totalFoodEaten,
             currentAttemptScore := 0 }
  else t

/-- `getCurrentScore()` — returns `totalFoodEaten`. -/
def getCurrentScore (t : ScoreTrackerG) : Int := t.totalFoodEaten

/-- `setScore(score)`: the argument is ignored; the score reverts to the
base score for the current level and the per-level counters reset. -/
def setScore (t : ScoreTrackerG) (_score : Int) : ScoreTrackerG :=
  { t with totalFoodEaten := t.baseLevelScore,
           currentAttemptScore := 0,
           foodEatenCount := 0,
           remainingFoodInLevel := (requiredFoodOf t.currentLevel : Int) }

/-- `reset(selectedLevel)`. -/
def reset (t : ScoreTrackerG) (selectedLevel : Nat) : ScoreTrackerG :=
  { t with currentLevel := selectedLevel,
           remainingFoodInLevel := (requiredFoodOf selectedLevel : Int),
           foodEatenCount := 0,
           baseLevelScore := getMinimumScoreForLevel selectedLevel,
           currentAttemptScore := 0,
           totalFoodEaten := getMinimumScoreForLevel selectedLevel }

end ScoreTrackerG

/-! ### The simulation engine (`src/src/components/Game.tsx`) -/

/-- The food object `{x, y, color}`. -/
structure Food where
  x : Int
  y : Int
  color : String
deriving DecidableEq, Repr

/-- The food cell, as a `Pos`. -/
def Food.toPos (f : Food) : Pos := ⟨f.x, f.y⟩

/-- The fields of the component's `gameState` that the engine reads or
writes (the UI-only fields `showRules`, `showLevelSelection` and
`overlayStyle` are omitted; `moveSnake` never reads them). -/
structure GameState where
  snake : List Pos
  food : Food
  direction : Dir
  score : Int
  gameOver : Bool
  snakeColor : String
  level : Nat
  levelComplete : Bool
  remainingFood : Int
  lives : Int
  levelStartScore : Int
deriving DecidableEq, Repr

/-- The component state surrounding `gameState` that `moveSnake` uses:
the obstacle list, the long-lived score tracker, the replay-mode flag and
the session high score. -/
structure World where
  gs : GameState
  obstacles : List Pos
  tracker : ScoreTrackerG
  isReplayMode : Bool
  currentSessionHighScore : Int
deriving DecidableEq, Repr

/-- The candidate head of a tick: current head plus the direction's unit
delta, wrapped on both axes by `(c + size) % size` (JS `%` = `Int.tmod`).
`moveSnake` reads `newSnake[0]`; an empty snake (impossible in the game,
where the snake always has ≥ 3 segments) defaults to `(0,0)`. -/
def candidateHead (W H : Nat) (snake : List Pos) (d : Dir) : Pos :=
  let head := snake.headD ⟨0, 0⟩
  let dir := DIRECTIONS d
  ⟨(head.x + dir.x + W).tmod W, (head.y + dir.y + H).tmod H⟩

/-- The self-collision test of `moveSnake`:
`newSnake.slice(1, -1).some(seg => seg.x === head.x && seg.y === head.y)`
where `newSnake = [head, ...snake]` — i.e. the old body with its last
segment (the tail) dropped, on every tick. -/
def selfCollisionCheck (head : Pos) (snake : List Pos) : Bool :=
  hasCell ((head :: snake).drop 1).dropLast head

/-- The obstacle-collision test of `moveSnake`. -/
def obstacleCollisionCheck (head : Pos) (obstacles : List Pos) : Bool :=
  hasCell obstacles head

/-- One engine tick: `moveSnake` from `Game.tsx`. `env` models the
`Math.random()` draws of the tick (draw 0: food position index, draw 1:
food color index). Mirrors the source's branch structure: early return
when the game is over; collision branch (replay shortcut, then lives
bookkeeping, `setScore` on a non-final life loss); food branch
(`incrementFoodEaten`, level-complete or new food via
`getRandomPosition`); otherwise plain movement popping the tail. -/
def moveSnake (W H : Nat) (env : Nat → Nat) (w : World) : World :=
  if w.gs.gameOver then w
  else
    let head := candidateHead W H w.gs.snake w.gs.direction
    let newSnake := head :: w.gs.snake
    let selfCollision := selfCollisionCheck head w.gs.snake
    let obstacleCollision := obstacleCollisionCheck head w.obstacles
    if selfCollision || obstacleCollision then
      if w.isReplayMode then
        { w with gs := { w.gs with snake := newSnake, gameOver := true } }
      else
        let newLives := w.gs.lives - 1
        let isGameOver := decide (newLives ≤ 0)
        if isGameOver then
          let finalScore :=
            w.tracker.baseLevelScore + w.tracker.currentAttemptScore
          let gs1 :=
            { w.gs with
              snake := newSnake
              gameOver := true
              lives := newLives
              score := if w.isReplayMode then 0 else finalScore }
          { w with currentSessionHighScore := finalScore, gs := gs1 }
        else
          let tracker := w.tracker.setScore w.gs.levelStartScore
          let gs1 :=
            { w.gs with
              snake := newSnake
              gameOver := true
              lives := newLives
              score := tracker.baseLevelScore }
          { w with tracker := tracker, gs := gs1 }
    else if head.x == w.gs.food.x && head.y == w.gs.food.y then
      let eaten := w.tracker.incrementFoodEaten
      let levelComplete := eaten.1
      let tracker := eaten.2
      let remainingFood := tracker.remainingFoodInLevel
      let newScore := tracker.totalFoodEaten
      if levelComplete then
        let gs1 :=
          { w.gs with
            snake := newSnake
            snakeColor := w.gs.food.color
            levelComplete := true
            score := newScore
            remainingFood := 0
            lives := 3
            levelStartScore := newScore }
        { w with tracker := tracker, currentSessionHighScore := newScore,
                 gs := gs1 }
      else
        let foodPos := getRandomPosition W H w.obstacles newSnake (env 0)
        let gs1 :=
          { w.gs with
            snake := newSnake
            snakeColor := w.gs.food.color
            food := ⟨foodPos.x, foodPos.y, pickFoodColor (env 1)⟩
            score := newScore
            remainingFood := remainingFood }
        { w with tracker := tracker, gs := gs1 }
    else
      { w with gs := { w.gs with snake := newSnake.dropLast } }

/-- `opposites` from `handleGesture` in `Game.tsx`. -/
def opposites : Dir → Dir
  | .UP => .DOWN
  | .DOWN => .UP
  | .LEFT => .RIGHT
  | .RIGHT => .LEFT

/-- `handleGesture(direction)`: the state update applied on a direction
input — the previous state is returned unchanged when the current
direction is the opposite of the submitted one. -/
def handleGesture (direction : Dir) (prevState : GameState) : GameState :=
  if prevState.direction = opposites direction then prevState
  else { prevState with direction := direction }

/-! ### Claim theorems about the engine -/

theorem tmod_eq_emod_of_nonneg (a b : Int) (h : 0 ≤ a) :
    a.tmod b = a % b := by
  rcases a with n | n
  · rcases b with m | m
    · rfl
    · rfl
  · exact absurd h (not_le.mpr (Int.negSucc_lt_zero n))

/-- **C7.** Movement is toroidal on both axes: for a head in range, the
candidate head is the head plus the direction's unit delta, reduced
modulo the grid width and height; in particular a head at `x = W-1`
moving `RIGHT` wraps to `x = 0`, a head at `x = 0` moving `LEFT` wraps to
`x = W-1`, and likewise on the vertical axis for `DOWN`/`UP`. -/
theorem candidateHead_toroidal (W H : Nat) (p : Pos) (rest : List Pos)
    (hW : 0 < W) (hH : 0 < H) (hx0 : 0 ≤ p.x) (hxW : p.x < (W : Int))
    (hy0 : 0 ≤ p.y) (hyH : p.y < (H : Int)) :
    (∀ d : Dir,
      candidateHead W H (p :: rest) d =
        ⟨(p.x + (DIRECTIONS d).x) % (W : Int),
         (p.y + (DIRECTIONS d).y) % (H : Int)⟩) ∧
    (p.x = (W : Int) - 1 →
      candidateHead W H (p :: rest) .RIGHT = ⟨0, p.y⟩) ∧
    (p.x = 0 →
      candidateHead W H (p :: rest) .LEFT = ⟨(W : Int) - 1, p.y⟩) ∧
    (p.y = (H : Int) - 1 →
      candidateHead W H (p :: rest) .DOWN = ⟨p.x, 0⟩) ∧
    (p.y = 0 →
      candidateHead W H (p :: rest) .UP = ⟨p.x, (H : Int) - 1⟩) := by
  have hWpos : (0 : Int) < (W : Int) := by exact_mod_cast hW
  have hHpos : (0 : Int) < (H : Int) := by exact_mod_cast hH
  have hgen : ∀ d : Dir,
      candidateHead W H (p :: rest) d =
        ⟨(p.x + (DIRECTIONS d).x) % (W : Int),
         (p.y + (DIRECTIONS d).y) % (H : Int)⟩ := by
    intro d
    have hxa : 0 ≤ p.x + (DIRECTIONS d).x + (W : Int) := by
      cases d <;> simp only [DIRECTIONS] <;> omega
    have hya : 0 ≤ p.y + (DIRECTIONS d).y + (H : Int) := by
      cases d <;> simp only [DIRECTIONS] <;> omega
    simp only [candidateHead, List.headD_cons]
    rw [tmod_eq_emod_of_nonneg _ _ hxa, tmod_eq_emod_of_nonneg _ _ hya]
    have ex : (p.x + (DIRECTIONS d).x + (W : Int)) % (W : Int) =
        (p.x + (DIRECTIONS d).x) % (W : Int) := by
      conv_lhs => rw [show p.x + (DIRECTIONS d).x + (W : Int) =
        p.x + (DIRECTIONS d).x + (W : Int) * 1 by ring]
      exact Int.add_mul_emod_self_left _ _ _
    have ey : (p.y + (DIRECTIONS d).y + (H : Int)) % (H : Int) =
        (p.y + (DIRECTIONS d).y) % (H : Int) := by
      conv_lhs => rw [show p.y + (DIRECTIONS d).y + (H : Int) =
        p.y + (DIRECTIONS d).y + (H : Int) * 1 by ring]
      exact Int.add_mul_emod_self_left _ _ _
    rw [ex, ey]
  refine ⟨hgen, ?_, ?_, ?_, ?_⟩
  · intro hedge
    rw [hgen .RIGHT]
    simp only [DIRECTIONS]
    ext
    · show (p.x + 1) % (W : Int) = 0
      rw [hedge]
      simp [Int.emod_self]
    · show (p.y + 0) % (H : Int) = p.y
      rw [add_zero]
      exact Int.emod_eq_of_lt hy0 hyH
  · intro hedge
    rw [hgen .LEFT]
    simp only [DIRECTIONS]
    ext
    · show (p.x + -1) % (W : Int) = (W : Int) - 1
      rw [hedge]
      have : ((0 : Int) + -1) % (W : Int) = ((W : Int) - 1) % (W : Int) := by
        conv_rhs => rw [show (W : Int) - 1 = 0 + -1 + (W : Int) * 1 by ring]
        rw [Int.add_mul_emod_self_left]
      rw [this]
      exact Int.emod_eq_of_lt (by omega) (by omega)
    · show (p.y + 0) % (H : Int) = p.y
      rw [add_zero]
      exact Int.emod_eq_of_lt hy0 hyH
  · intro hedge
    rw [hgen .DOWN]
    simp only [DIRECTIONS]
    ext
    · show (p.x + 0) % (W : Int) = p.x
      rw [add_zero]
      exact Int.emod_eq_of_lt hx0 hxW
    · show (p.y + 1) % (H : Int) = 0
      rw [hedge]
      simp [Int.emod_self]
  · intro hedge
    rw [hgen .UP]
    simp only [DIRECTIONS]
    ext
    · show (p.x + 0) % (W : Int) = p.x
      rw [add_zero]
      exact Int.emod_eq_of_lt hx0 hxW
    · show (p.y + -1) % (H : Int) = (H : Int) - 1
      rw [hedge]
      have : ((0 : Int) + -1) % (H : Int) = ((H : Int) - 1) % (H : Int) := by
        conv_rhs => rw [show (H : Int) - 1 = 0 + -1 + (H : Int) * 1 by ring]
        rw [Int.add_mul_emod_self_left]
      rw [this]
      exact Int.emod_eq_of_lt (by omega) (by omega)

/-- Witness for C7 on the spec's 20×16 grid: head `(19, 5)` moving RIGHT
wraps to `(0, 5)`, and head `(3, 15)` moving DOWN wraps to `(3, 0)`. -/
theorem candidateHead_toroidal_witness :
    candidateHead 20 16 [⟨19, 5⟩] .RIGHT = ⟨0, 5⟩ ∧
    candidateHead 20 16 [⟨3, 15⟩] .DOWN = ⟨3, 0⟩ := by
  constructor
  · exact (candidateHead_toroidal 20 16 ⟨19, 5⟩ [] (by decide) (by decide)
      (by decide) (by decide) (by decide) (by decide)).2.1 (by decide)
  · exact (candidateHead_toroidal 20 16 ⟨3, 15⟩ [] (by decide) (by decide)
      (by decide) (by decide) (by decide) (by decide)).2.2.2.1 (by decide)

theorem opposites_opposites (d : Dir) : opposites (opposites d) = d := by
  cases d <;> rfl

/-- **C8.** Submitting the exact opposite of the committed direction leaves
the state unchanged; in particular with the direction RIGHT, submitting
LEFT keeps RIGHT committed and the next tick still moves in `+x`
(the direction's delta is `(1, 0)`). -/
theorem handleGesture_rejects_reversal :
    (∀ (s : GameState) (d : Dir),
      d = opposites s.direction → handleGesture d s = s) ∧
    (∀ s : GameState, s.direction = .RIGHT →
      (handleGesture .LEFT s).direction = .RIGHT ∧
      (DIRECTIONS (handleGesture .LEFT s).direction).x = 1) := by
  constructor
  · intro s d hd
    rw [handleGesture, if_pos]
    rw [hd, opposites_opposites]
  · intro s hs
    have h1 : handleGesture .LEFT s = s := by
      rw [handleGesture, if_pos]
      rw [hs]
      rfl
    rw [h1, hs]
    exact ⟨rfl, rfl⟩

/-- Witness for C8 at a concrete state moving RIGHT. -/
theorem handleGesture_rejects_reversal_witness :
    handleGesture .LEFT
      ⟨[⟨2, 1⟩, ⟨1, 1⟩, ⟨0, 1⟩], ⟨10, 10, "#FF0000"⟩, .RIGHT, 0, false,
       "#FF0000", 1, false, 3, 3, 0⟩ =
      ⟨[⟨2, 1⟩, ⟨1, 1⟩, ⟨0, 1⟩], ⟨10, 10, "#FF0000"⟩, .RIGHT, 0, false,
       "#FF0000", 1, false, 3, 3, 0⟩ :=
  handleGesture_rejects_reversal.1 _ .LEFT rfl

theorem selfCollisionCheck_eq_mem_dropLast (head : Pos) (snake : List Pos) :
    selfCollisionCheck head snake = true ↔ head ∈ snake.dropLast := by
  rw [selfCollisionCheck]
  show hasCell snake.dropLast head = true ↔ _
  exact hasCell_eq_true_iff_mem _ _

theorem moveSnake_collision_normal (W H : Nat) (env : Nat → Nat) (w : World)
    (hgo : w.gs.gameOver = false) (hrm : w.isReplayMode = false)
    (hcol : (selfCollisionCheck (candidateHead W H w.gs.snake w.gs.direction)
        w.gs.snake ||
      obstacleCollisionCheck (candidateHead W H w.gs.snake w.gs.direction)
        w.obstacles) = true) :
    (moveSnake W H env w).gs.gameOver = true ∧
    (moveSnake W H env w).gs.lives = w.gs.lives - 1 ∧
    (¬w.gs.lives - 1 ≤ 0 →
      (moveSnake W H env w).tracker =
        w.tracker.setScore w.gs.levelStartScore ∧
      (moveSnake W H env w).gs.score = w.tracker.baseLevelScore) := by
  rw [moveSnake]
  simp only [hgo, Bool.false_eq_true, if_false]
  rw [if_pos hcol, if_neg (by rw [hrm]; exact Bool.false_ne_true)]
  by_cases hlv : w.gs.lives - 1 ≤ 0
  · rw [if_pos (by rw [decide_eq_true hlv])]
    exact ⟨rfl, rfl, fun hc => absurd hlv hc⟩
  · rw [if_neg (by rw [decide_eq_false hlv]; exact Bool.false_ne_true)]
    refine ⟨rfl, rfl, fun _ => ⟨rfl, ?_⟩⟩
    show (w.tracker.setScore w.gs.levelStartScore).baseLevelScore =
      w.tracker.baseLevelScore
    rfl

theorem moveSnake_no_collision_gameOver (W H : Nat) (env : Nat → Nat)
    (w : World) (hgo : w.gs.gameOver = false)
    (hcol : (selfCollisionCheck (candidateHead W H w.gs.snake w.gs.direction)
        w.gs.snake ||
      obstacleCollisionCheck (candidateHead W H w.gs.snake w.gs.direction)
        w.obstacles) = false) :
    (moveSnake W H env w).gs.gameOver = false := by
  rw [moveSnake]
  simp only [hgo, Bool.false_eq_true, if_false]
  rw [if_neg (by rw [hcol]; exact Bool.false_ne_true)]
  split
  · split
    · rfl
    · rfl
  · rfl

theorem moveSnake_collision_any_mode (W H : Nat) (env : Nat → Nat)
    (w : World) (hgo : w.gs.gameOver = false)
    (hcol : (selfCollisionCheck (candidateHead W H w.gs.snake w.gs.direction)
        w.gs.snake ||
      obstacleCollisionCheck (candidateHead W H w.gs.snake w.gs.direction)
        w.obstacles) = true) :
    (moveSnake W H env w).gs.gameOver = true := by
  rw [moveSnake]
  simp only [hgo, Bool.false_eq_true, if_false]
  rw [if_pos hcol]
  split
  · rfl
  · split
    · rfl
    · rfl

/-- **C1 (amended).** The self-collision check virtually removes the tail
on every tick, food-consuming ticks included: the check `moveSnake`
performs is exactly "candidate head lies in the body with its last segment
dropped" (`newSnake.slice(1, -1)`), and, irrespective of whether the
candidate head equals the food cell, a tick leaves the `Running` state
(sets `gameOver`) exactly when the candidate head hits the tail-less body
or an obstacle. -/
theorem selfCollision_tail_always_removed :
    (∀ (head : Pos) (snake : List Pos),
      selfCollisionCheck head snake = true ↔ head ∈ snake.dropLast) ∧
    (∀ (W H : Nat) (env : Nat → Nat) (w : World),
      w.gs.gameOver = false →
      ((moveSnake W H env w).gs.gameOver = true ↔
        (candidateHead W H w.gs.snake w.gs.direction ∈
          w.gs.snake.dropLast ∨
         candidateHead W H w.gs.snake w.gs.direction ∈ w.obstacles))) := by
  refine ⟨selfCollisionCheck_eq_mem_dropLast, ?_⟩
  intro W H env w hgo
  by_cases hcol : (selfCollisionCheck
      (candidateHead W H w.gs.snake w.gs.direction) w.gs.snake ||
    obstacleCollisionCheck (candidateHead W H w.gs.snake w.gs.direction)
      w.obstacles) = true
  · rw [moveSnake_collision_any_mode W H env w hgo hcol]
    rcases Bool.or_eq_true_iff.mp hcol with hsc | hoc
    · simp only [true_iff]
      exact Or.inl ((selfCollisionCheck_eq_mem_dropLast _ _).mp hsc)
    · simp only [true_iff]
      exact Or.inr ((hasCell_eq_true_iff_mem _ _).mp hoc)
  · have hcol' := Bool.not_eq_true _ ▸ hcol
    rw [moveSnake_no_collision_gameOver W H env w hgo
      (Bool.not_eq_true _ |>.mp hcol)]
    simp only [Bool.false_eq_true, false_iff]
    rintro (hmem | hmem)
    · exact hcol (Bool.or_eq_true_iff.mpr (Or.inl
        ((selfCollisionCheck_eq_mem_dropLast _ _).mpr hmem)))
    · exact hcol (Bool.or_eq_true_iff.mpr (Or.inr
        ((hasCell_eq_true_iff_mem _ _).mpr hmem)))

/-- Witness for the amended C1 at a concrete collision-free state. -/
theorem selfCollision_tail_always_removed_witness :
    (moveSnake 5 5 (fun _ => 0)
      ⟨⟨[⟨1, 1⟩, ⟨0, 1⟩], ⟨4, 4, "#FF0000"⟩, .RIGHT, 0, false, "#FF0000",
        1, false, 3, 3, 0⟩, [], ScoreTrackerG.init, false, 0⟩).gs.gameOver
      = true ↔
    (candidateHead 5 5 [⟨1, 1⟩, ⟨0, 1⟩] .RIGHT ∈
      ([⟨1, 1⟩, ⟨0, 1⟩] : List Pos).dropLast ∨
     candidateHead 5 5 [⟨1, 1⟩, ⟨0, 1⟩] .RIGHT ∈ ([] : List Pos)) :=
  selfCollision_tail_always_removed.2 5 5 (fun _ => 0) _ rfl

/-- **C1 (counterexample).** The claim states that on a food-consuming tick
the candidate head is checked against the full body including the tail. In
this concrete state the snake is the 2×2 square
`[(0,0), (1,0), (1,1), (0,1)]` heading DOWN, the food sits on the tail cell
`(0,1)`, and the candidate head is exactly that tail cell — a member of the
full body on a food tick. Under the claim this tick is a self-collision and
must leave the `Running` state; the code instead keeps `gameOver = false`
(it eats the food), because the tail is excluded from the check on every
tick. -/
theorem selfCollision_food_tick_counterexample :
    candidateHead 5 5 [⟨0, 0⟩, ⟨1, 0⟩, ⟨1, 1⟩, ⟨0, 1⟩] .DOWN = ⟨0, 1⟩ ∧
    (⟨0, 1⟩ : Pos) ∈ ([⟨0, 0⟩, ⟨1, 0⟩, ⟨1, 1⟩, ⟨0, 1⟩] : List Pos) ∧
    (moveSnake 5 5 (fun _ => 0)
      ⟨⟨[⟨0, 0⟩, ⟨1, 0⟩, ⟨1, 1⟩, ⟨0, 1⟩], ⟨0, 1, "#FF0000"⟩, .DOWN, 0,
        false, "#FF0000", 1, false, 3, 3, 0⟩, [], ScoreTrackerG.init,
        false, 0⟩).gs.gameOver = false := by
  refine ⟨by decide, by decide, ?_⟩
  decide

theorem mem_dropLast_selfCheck {head : Pos} {snake : List Pos}
    (h : head ∈ snake.dropLast) :
    selfCollisionCheck head snake = true :=
  (selfCollisionCheck_eq_mem_dropLast head snake).mpr h

/-- **C2 (amended).** On every normal-mode tick whose candidate head lies
in the obstacle set or in the snake body with the tail excluded (the tail
is excluded on every tick, food-consuming ticks included), the engine
leaves the `Running` state (`gameOver` becomes `true`) and `lives`
decreases by exactly 1. -/
theorem collision_exits_running_decrements_lives (W H : Nat)
    (env : Nat → Nat) (w : World) (hgo : w.gs.gameOver = false)
    (hrm : w.isReplayMode = false)
    (hcol : candidateHead W H w.gs.snake w.gs.direction ∈
        w.gs.snake.dropLast ∨
      candidateHead W H w.gs.snake w.gs.direction ∈ w.obstacles) :
    (moveSnake W H env w).gs.gameOver = true ∧
    (moveSnake W H env w).gs.lives = w.gs.lives - 1 := by
  have hcolb : (selfCollisionCheck
      (candidateHead W H w.gs.snake w.gs.direction) w.gs.snake ||
    obstacleCollisionCheck (candidateHead W H w.gs.snake w.gs.direction)
      w.obstacles) = true := by
    rcases hcol with hmem | hmem
    · exact Bool.or_eq_true_iff.mpr (Or.inl (mem_dropLast_selfCheck hmem))
    · exact Bool.or_eq_true_iff.mpr
        (Or.inr ((hasCell_eq_true_iff_mem _ _).mpr hmem))
  have h := moveSnake_collision_normal W H env w hgo hrm hcolb
  exact ⟨h.1, h.2.1⟩

/-- Witness for C2 at a concrete obstacle collision: lives drop 3 → 2 and
the tick exits `Running`. -/
theorem collision_exits_running_decrements_lives_witness :
    (moveSnake 5 5 (fun _ => 0)
      ⟨⟨[⟨1, 1⟩, ⟨0, 1⟩], ⟨4, 4, "#FF0000"⟩, .RIGHT, 0, false, "#FF0000",
        1, false, 3, 3, 0⟩, [⟨2, 1⟩], ScoreTrackerG.init, false,
        0⟩).gs.gameOver = true ∧
    (moveSnake 5 5 (fun _ => 0)
      ⟨⟨[⟨1, 1⟩, ⟨0, 1⟩], ⟨4, 4, "#FF0000"⟩, .RIGHT, 0, false, "#FF0000",
        1, false, 3, 3, 0⟩, [⟨2, 1⟩], ScoreTrackerG.init, false,
        0⟩).gs.lives = 3 - 1 :=
  collision_exits_running_decrements_lives 5 5 (fun _ => 0) _ rfl rfl
    (Or.inr (by decide))

/-- **C2 (counterexample).** The claim's collision condition includes "a
body cell (excluding the about-to-be-vacated tail on a non-food tick)" —
on a food tick the tail is therefore included. In the first concrete state
the candidate head equals both the food cell and the tail cell (a body
cell, not an obstacle), so under the claim the engine should leave
`Running` and decrement `lives`; the code instead consumes the food:
`gameOver` stays `false` and `lives` stays 3. The last two conjuncts show
a second deviation: on a practice-mode (replay) tick an obstacle collision
leaves `Running` but does not decrement `lives`. -/
theorem collision_claim_food_tail_counterexample :
    candidateHead 6 6 [⟨2, 2⟩, ⟨3, 2⟩, ⟨3, 3⟩, ⟨2, 3⟩] .DOWN = ⟨2, 3⟩ ∧
    (⟨2, 3⟩ : Pos) ∈ ([⟨2, 2⟩, ⟨3, 2⟩, ⟨3, 3⟩, ⟨2, 3⟩] : List Pos) ∧
    (moveSnake 6 6 (fun _ => 0)
      ⟨⟨[⟨2, 2⟩, ⟨3, 2⟩, ⟨3, 3⟩, ⟨2, 3⟩], ⟨2, 3, "#00FF00"⟩, .DOWN, 0,
        false, "#FF0000", 1, false, 3, 3, 0⟩, [], ScoreTrackerG.init,
        false, 0⟩).gs.gameOver = false ∧
    (moveSnake 6 6 (fun _ => 0)
      ⟨⟨[⟨2, 2⟩, ⟨3, 2⟩, ⟨3, 3⟩, ⟨2, 3⟩], ⟨2, 3, "#00FF00"⟩, .DOWN, 0,
        false, "#FF0000", 1, false, 3, 3, 0⟩, [], ScoreTrackerG.init,
        false, 0⟩).gs.lives = 3 ∧
    (moveSnake 6 6 (fun _ => 0)
      ⟨⟨[⟨1, 1⟩, ⟨0, 1⟩], ⟨4, 4, "#FF0000"⟩, .RIGHT, 0, false, "#FF0000",
        1, false, 3, 3, 0⟩, [⟨2, 1⟩], ScoreTrackerG.init, true,
        0⟩).gs.gameOver = true ∧
    (moveSnake 6 6 (fun _ => 0)
      ⟨⟨[⟨1, 1⟩, ⟨0, 1⟩], ⟨4, 4, "#FF0000"⟩, .RIGHT, 0, false, "#FF0000",
        1, false, 3, 3, 0⟩, [⟨2, 1⟩], ScoreTrackerG.init, true,
        0⟩).gs.lives = 3 := by
  refine ⟨by decide, by decide, ?_, ?_, ?_, ?_⟩
  · decide
  · decide
  · decide
  · decide

theorem moveSnake_food_branch (W H : Nat) (env : Nat → Nat) (w : World)
    (hgo : w.gs.gameOver = false)
    (hcol : (selfCollisionCheck (candidateHead W H w.gs.snake w.gs.direction)
        w.gs.snake ||
      obstacleCollisionCheck (candidateHead W H w.gs.snake w.gs.direction)
        w.obstacles) = false)
    (hfood : ((candidateHead W H w.gs.snake w.gs.direction).x ==
        w.gs.food.x &&
      (candidateHead W H w.gs.snake w.gs.direction).y ==
        w.gs.food.y) = true) :
    (moveSnake W H env w).gs.snake =
      candidateHead W H w.gs.snake w.gs.direction :: w.gs.snake ∧
    (w.tracker.incrementFoodEaten.1 = false →
      (moveSnake W H env w).gs.food =
        ⟨(getRandomPosition W H w.obstacles
            (candidateHead W H w.gs.snake w.gs.direction :: w.gs.snake)
            (env 0)).x,
          (getRandomPosition W H w.obstacles
            (candidateHead W H w.gs.snake w.gs.direction :: w.gs.snake)
            (env 0)).y,
          pickFoodColor (env 1)⟩) ∧
    (w.tracker.incrementFoodEaten.1 = true →
      (moveSnake W H env w).gs.food = w.gs.food) := by
  rw [moveSnake]
  simp only [hgo, Bool.false_eq_true, if_false]
  rw [if_neg (by rw [hcol]; exact Bool.false_ne_true)]
  rw [if_pos hfood]
  by_cases hlc : w.tracker.incrementFoodEaten.1 = true
  · rw [if_pos hlc]
    exact ⟨rfl, fun hc => absurd hlc (by rw [hc]; exact Bool.false_ne_true),
      fun _ => rfl⟩
  · rw [if_neg hlc]
    exact ⟨rfl, fun _ => rfl,
      fun hc => absurd hc hlc⟩

/-- **C4 (amended).** On every tick in which the candidate head lands on
the food cell and no collision occurs, the snake's length after the tick
is exactly one greater than before. When the consumption does not complete
the level and at least one free cell exists for the grown body, the newly
placed food cell lies neither in the grown snake body nor in the obstacle
set. (When the consumption completes the level, no new food is placed: the
old food cell — now under the snake's head — is kept; and when the grid
has no free cell left the placement falls back to the fixed cell `(1,1)`.) -/
theorem food_tick_grows_snake_places_free_food (W H : Nat)
    (env : Nat → Nat) (w : World) (hgo : w.gs.gameOver = false)
    (hfood : ((candidateHead W H w.gs.snake w.gs.direction).x ==
        w.gs.food.x &&
      (candidateHead W H w.gs.snake w.gs.direction).y ==
        w.gs.food.y) = true)
    (hcol : (selfCollisionCheck (candidateHead W H w.gs.snake w.gs.direction)
        w.gs.snake ||
      obstacleCollisionCheck (candidateHead W H w.gs.snake w.gs.direction)
        w.obstacles) = false) :
    (moveSnake W H env w).gs.snake.length = w.gs.snake.length + 1 ∧
    (w.tracker.incrementFoodEaten.1 = false →
      availablePositions W H w.obstacles
        (candidateHead W H w.gs.snake w.gs.direction :: w.gs.snake) ≠ [] →
      (moveSnake W H env w).gs.food.toPos ∉ w.obstacles ∧
      (moveSnake W H env w).gs.food.toPos ∉ (moveSnake W H env w).gs.snake)
    := by
  obtain ⟨hsnake, hfoodNew, _⟩ :=
    moveSnake_food_branch W H env w hgo hcol hfood
  constructor
  · rw [hsnake, List.length_cons]
  · intro hlc hfree
    have hlen : 0 < (availablePositions W H w.obstacles
        (candidateHead W H w.gs.snake w.gs.direction ::
          w.gs.snake)).length :=
      List.length_pos.mpr hfree
    have hmem := getRandomPosition_mem_avail (env 0) hlen
    have hfreecell := mem_availablePositions_free hmem
    have hpos : (moveSnake W H env w).gs.food.toPos =
        getRandomPosition W H w.obstacles
          (candidateHead W H w.gs.snake w.gs.direction :: w.gs.snake)
          (env 0) := by
      rw [hfoodNew hlc]
      exact Pos.ext rfl rfl
    rw [hpos, hsnake]
    exact hfreecell

/-- Witness for the amended C4: a concrete non-completing food tick on a
5×5 grid grows the snake from 3 to 4 segments and respawns free food. -/
theorem food_tick_grows_snake_witness :
    (moveSnake 5 5 (fun _ => 0)
      ⟨⟨[⟨2, 1⟩, ⟨1, 1⟩, ⟨0, 1⟩], ⟨3, 1, "#0000FF"⟩, .RIGHT, 0, false,
        "#FF0000", 1, false, 3, 3, 0⟩, [], ScoreTrackerG.init, false,
        0⟩).gs.snake.length = 3 + 1 ∧
    ((moveSnake 5 5 (fun _ => 0)
      ⟨⟨[⟨2, 1⟩, ⟨1, 1⟩, ⟨0, 1⟩], ⟨3, 1, "#0000FF"⟩, .RIGHT, 0, false,
        "#FF0000", 1, false, 3, 3, 0⟩, [], ScoreTrackerG.init, false,
        0⟩).gs.food.toPos ∉ ([] : List Pos) ∧
     (moveSnake 5 5 (fun _ => 0)
      ⟨⟨[⟨2, 1⟩, ⟨1, 1⟩, ⟨0, 1⟩], ⟨3, 1, "#0000FF"⟩, .RIGHT, 0, false,
        "#FF0000", 1, false, 3, 3, 0⟩, [], ScoreTrackerG.init, false,
        0⟩).gs.food.toPos ∉ (moveSnake 5 5 (fun _ => 0)
      ⟨⟨[⟨2, 1⟩, ⟨1, 1⟩, ⟨0, 1⟩], ⟨3, 1, "#0000FF"⟩, .RIGHT, 0, false,
        "#FF0000", 1, false, 3, 3, 0⟩, [], ScoreTrackerG.init, false,
        0⟩).gs.snake) := by
  have h := food_tick_grows_snake_places_free_food 5 5 (fun _ => 0)
    ⟨⟨[⟨2, 1⟩, ⟨1, 1⟩, ⟨0, 1⟩], ⟨3, 1, "#0000FF"⟩, .RIGHT, 0, false,
      "#FF0000", 1, false, 3, 3, 0⟩, [], ScoreTrackerG.init, false, 0⟩
    rfl (by decide) (by decide)
  exact ⟨h.1, h.2 (by decide) (by decide)⟩

/-- **C4 (counterexample).** The claim asserts that on every collision-free
food tick "the newly placed food cell is not inside the grown snake body".
On a level-completing tick the code places no new food at all: the food
field keeps its old value, which is exactly the cell the snake's head just
moved onto. Concretely, with one food item remaining on level 1, eating it
leaves the food cell `(3,1)` in place while the grown snake now covers
`(3,1)` — the post-tick food cell is inside the post-tick snake body.
The last two conjuncts show the second deviation: on a non-completing
food tick of a 2×2 grid whose grown snake covers every cell, the
placement falls back to `(1,1)`, which also lies inside the grown body. -/
theorem food_tick_level_complete_counterexample :
    (moveSnake 20 16 (fun _ => 0)
      ⟨⟨[⟨2, 1⟩, ⟨1, 1⟩, ⟨0, 1⟩], ⟨3, 1, "#0000FF"⟩, .RIGHT, 2, false,
        "#FF0000", 1, false, 1, 3, 0⟩, [],
        ⟨0, 0, 2, 1, 1, 2, 0, 2⟩, false, 0⟩).gs.levelComplete = true ∧
    (moveSnake 20 16 (fun _ => 0)
      ⟨⟨[⟨2, 1⟩, ⟨1, 1⟩, ⟨0, 1⟩], ⟨3, 1, "#0000FF"⟩, .RIGHT, 2, false,
        "#FF0000", 1, false, 1, 3, 0⟩, [],
        ⟨0, 0, 2, 1, 1, 2, 0, 2⟩, false, 0⟩).gs.food.toPos ∈
      (moveSnake 20 16 (fun _ => 0)
      ⟨⟨[⟨2, 1⟩, ⟨1, 1⟩, ⟨0, 1⟩], ⟨3, 1, "#0000FF"⟩, .RIGHT, 2, false,
        "#FF0000", 1, false, 1, 3, 0⟩, [],
        ⟨0, 0, 2, 1, 1, 2, 0, 2⟩, false, 0⟩).gs.snake ∧
    (moveSnake 2 2 (fun _ => 0)
      ⟨⟨[⟨0, 0⟩, ⟨1, 0⟩, ⟨1, 1⟩], ⟨0, 1, "#0000FF"⟩, .DOWN, 0, false,
        "#FF0000", 1, false, 3, 3, 0⟩, [], ScoreTrackerG.init, false,
        0⟩).gs.levelComplete = false ∧
    (moveSnake 2 2 (fun _ => 0)
      ⟨⟨[⟨0, 0⟩, ⟨1, 0⟩, ⟨1, 1⟩], ⟨0, 1, "#0000FF"⟩, .DOWN, 0, false,
        "#FF0000", 1, false, 3, 3, 0⟩, [], ScoreTrackerG.init, false,
        0⟩).gs.food.toPos ∈
      (moveSnake 2 2 (fun _ => 0)
      ⟨⟨[⟨0, 0⟩, ⟨1, 0⟩, ⟨1, 1⟩], ⟨0, 1, "#0000FF"⟩, .DOWN, 0, false,
        "#FF0000", 1, false, 3, 3, 0⟩, [], ScoreTrackerG.init, false,
        0⟩).gs.snake := by
  refine ⟨?_, ?_, ?_, ?_⟩
  · decide
  · decide
  · decide
  · decide

/-! ### Score-progression theorems -/

/-- Eat `n` food items in a row (`incrementFoodEaten` iterated, discarding
the level-complete signals, as the engine does between level changes). -/
def eatN : Nat → ScoreTrackerG → ScoreTrackerG
  | 0, t => t
  | n + 1, t => eatN n t.incrementFoodEaten.2

/-- Complete the tracker's current level without losing a life: eat exactly
its required food, then advance (`handleLevelComplete` calls
`advanceToNextLevel` after the level-complete signal). -/
def completeLevel (t : ScoreTrackerG) : ScoreTrackerG :=
  (eatN (requiredFoodOf t.currentLevel) t).advanceToNextLevel

/-- The tracker after completing levels `1 … k` from a fresh game,
without any life loss. -/
def completeLevels : Nat → ScoreTrackerG
  | 0 => ScoreTrackerG.init
  | k + 1 => completeLevel (completeLevels k)

/-- **C5.** Each consumed food item increments the cumulative score by
exactly 1 — `incrementFoodEaten` takes no color argument, so the food color
cannot affect scoring: in the named `ScoreTracker` file unconditionally,
and in the revised tracker class on every state satisfying its score
invariant `totalFoodEaten = baseLevelScore + currentAttemptScore` (which
holds throughout play). Consequently, after completing levels `1 … k`
without any life loss the cumulative score equals
`requiredFood[1] + … + requiredFood[k]`
(= `getMinimumScoreForLevel (k+1)`). -/
theorem food_scores_one_point_each :
    (∀ t : ScoreTracker,
      t.incrementFoodEaten.2.totalFoodEaten = t.totalFoodEaten + 1) ∧
    (∀ t : ScoreTrackerG,
      t.totalFoodEaten = t.baseLevelScore + t.currentAttemptScore →
      t.incrementFoodEaten.2.totalFoodEaten = t.totalFoodEaten + 1) ∧
    (∀ k : Nat, k ≤ getLevelCount →
      (completeLevels k).getCurrentScore =
        ScoreTrackerG.getMinimumScoreForLevel (k + 1)) := by
  refine ⟨fun t => rfl, ?_, ?_⟩
  · intro t h
    show t.baseLevelScore + (t.currentAttemptScore + 1) =
      t.totalFoodEaten + 1
    rw [h]
    ring
  · decide

/-- Witness for C5: one food on a fresh tracker scores 1; completing levels
1 and 2 (3 + 4 food) yields a cumulative score of
`getMinimumScoreForLevel 3 = 7`. -/
theorem food_scores_one_point_each_witness :
    ScoreTrackerG.init.incrementFoodEaten.2.totalFoodEaten =
      ScoreTrackerG.init.totalFoodEaten + 1 ∧
    (completeLevels 2).getCurrentScore =
      ScoreTrackerG.getMinimumScoreForLevel 3 :=
  ⟨food_scores_one_point_each.2.1 ScoreTrackerG.init rfl,
   food_scores_one_point_each.2.2 2 (by decide)⟩

/-- **C6.** On a normal-mode collision that leaves `lives - 1 > 0`, the
tracker's cumulative score reverts to the current level's baseline — the
sum of `requiredFood` over the fully completed prior levels (the fruit of
the failed attempt is discarded) — and the tracker's remaining-food
counter resets to the level's full requirement; the level itself is kept
and the rendered score field shows the baseline. The baseline hypothesis
`baseLevelScore = getMinimumScoreForLevel currentLevel` is the invariant
the tracker maintains during normal play. -/
theorem life_loss_reverts_to_baseline (W H : Nat) (env : Nat → Nat)
    (w : World) (hgo : w.gs.gameOver = false)
    (hrm : w.isReplayMode = false)
    (hcol : candidateHead W H w.gs.snake w.gs.direction ∈
        w.gs.snake.dropLast ∨
      candidateHead W H w.gs.snake w.gs.direction ∈ w.obstacles)
    (hlv : ¬w.gs.lives - 1 ≤ 0)
    (hbase : w.tracker.baseLevelScore =
      ScoreTrackerG.getMinimumScoreForLevel w.tracker.currentLevel) :
    (moveSnake W H env w).tracker.totalFoodEaten =
      ScoreTrackerG.getMinimumScoreForLevel w.tracker.currentLevel ∧
    (moveSnake W H env w).tracker.remainingFoodInLevel =
      (requiredFoodOf w.tracker.currentLevel : Int) ∧
    (moveSnake W H env w).tracker.currentLevel = w.tracker.currentLevel ∧
    (moveSnake W H env w).gs.score =
      ScoreTrackerG.getMinimumScoreForLevel w.tracker.currentLevel := by
  have hcolb : (selfCollisionCheck
      (candidateHead W H w.gs.snake w.gs.direction) w.gs.snake ||
    obstacleCollisionCheck (candidateHead W H w.gs.snake w.gs.direction)
      w.obstacles) = true := by
    rcases hcol with hmem | hmem
    · exact Bool.or_eq_true_iff.mpr (Or.inl (mem_dropLast_selfCheck hmem))
    · exact Bool.or_eq_true_iff.mpr
        (Or.inr ((hasCell_eq_true_iff_mem _ _).mpr hmem))
  obtain ⟨-, -, h3⟩ :=
    moveSnake_collision_normal W H env w hgo hrm hcolb
  obtain ⟨htr, hscore⟩ := h3 hlv
  refine ⟨?_, ?_, ?_, ?_⟩
  · rw [htr]
    exact hbase
  · rw [htr]
    rfl
  · rw [htr]
    rfl
  · rw [hscore]
    exact hbase

/-- Witness for C6: an obstacle collision on level 2 with 3 lives and a
baseline of 3 (= `requiredFood[1]`) reverts the score to 3 and the
remaining food to 4 (= `requiredFood[2]`), keeping level 2. -/
theorem life_loss_reverts_to_baseline_witness :
    (moveSnake 5 5 (fun _ => 0)
      ⟨⟨[⟨1, 1⟩, ⟨0, 1⟩], ⟨4, 4, "#FF0000"⟩, .RIGHT, 4, false, "#FF0000",
        2, false, 3, 3, 3⟩, [⟨2, 1⟩], ⟨0, 0, 1, 2, 3, 4, 3, 1⟩, false,
        0⟩).tracker.totalFoodEaten =
      ScoreTrackerG.getMinimumScoreForLevel 2 ∧
    (moveSnake 5 5 (fun _ => 0)
      ⟨⟨[⟨1, 1⟩, ⟨0, 1⟩], ⟨4, 4, "#FF0000"⟩, .RIGHT, 4, false, "#FF0000",
        2, false, 3, 3, 3⟩, [⟨2, 1⟩], ⟨0, 0, 1, 2, 3, 4, 3, 1⟩, false,
        0⟩).tracker.remainingFoodInLevel = (requiredFoodOf 2 : Int) := by
  have h := life_loss_reverts_to_baseline 5 5 (fun _ => 0)
    ⟨⟨[⟨1, 1⟩, ⟨0, 1⟩], ⟨4, 4, "#FF0000"⟩, .RIGHT, 4, false, "#FF0000",
      2, false, 3, 3, 3⟩, [⟨2, 1⟩], ⟨0, 0, 1, 2, 3, 4, 3, 1⟩, false, 0⟩
    rfl rfl (Or.inr (by decide)) (by decide) (by decide)
  exact ⟨h.1, h.2.1⟩

/-! ### Level-range invariant of the score tracker -/

/-- An operation sequence on the named `ScoreTracker`: the two mutators
that drive level progression. -/
inductive TrackerOp where
  | eat
  | advance
deriving DecidableEq, Repr

/-- Apply one tracker operation. -/
def applyOp (t : ScoreTracker) : TrackerOp → ScoreTracker
  | .eat => t.incrementFoodEaten.2
  | .advance => t.advanceToNextLevel

/-- Apply a sequence of tracker operations in order. -/
def applyOps (t : ScoreTracker) : List TrackerOp → ScoreTracker
  | [] => t
  | op :: ops => applyOps (applyOp t op) ops

theorem applyOps_level_range (ops : List TrackerOp) :
    ∀ t : ScoreTracker, 1 ≤ t.currentLevel →
      t.currentLevel ≤ getLevelCount →
      1 ≤ (applyOps t ops).currentLevel ∧
        (applyOps t ops).currentLevel ≤ getLevelCount := by
  induction ops with
  | nil => exact fun t h1 h2 => ⟨h1, h2⟩
  | cons op ops ih =>
    intro t h1 h2
    cases op with
    | eat => exact ih _ h1 h2
    | advance =>
      rw [applyOps, applyOp, ScoreTracker.advanceToNextLevel]
      by_cases hlt : t.currentLevel < getLevelCount
      · rw [if_pos hlt]
        exact ih _ (by show 1 ≤ t.currentLevel + 1; omega)
          (by show t.currentLevel + 1 ≤ getLevelCount; omega)
      · rw [if_neg hlt]
        exact ih _ h1 h2

/-- **C10.** The named score tracker's current level never leaves the range
`1 … getLevelCount()` under any sequence of `incrementFoodEaten` and
`advanceToNextLevel` calls starting from a freshly constructed tracker;
`advanceToNextLevel` on the last level returns the tracker unchanged (in
particular the level is unchanged), and `incrementFoodEaten` never
reports level-complete while on the last level. -/
theorem tracker_level_stays_in_range :
    (∀ ops : List TrackerOp,
      1 ≤ (applyOps ScoreTracker.init ops).currentLevel ∧
      (applyOps ScoreTracker.init ops).currentLevel ≤ getLevelCount) ∧
    (∀ t : ScoreTracker, t.currentLevel = getLevelCount →
      t.advanceToNextLevel = t) ∧
    (∀ t : ScoreTracker, t.currentLevel = getLevelCount →
      t.incrementFoodEaten.1 = false) := by
  refine ⟨?_, ?_, ?_⟩
  · intro ops
    exact applyOps_level_range ops ScoreTracker.init (by decide) (by decide)
  · intro t h
    rw [ScoreTracker.advanceToNextLevel, if_neg (by omega)]
  · intro t h
    show (decide (t.remainingFoodInLevel - 1 = 0) &&
      decide (t.currentLevel < getLevelCount)) = false
    rw [h]
    simp

/-- Witness for C10: a short operation sequence from a fresh tracker stays
within range, and on a tracker at the last level (10) `advanceToNextLevel`
is the identity while `incrementFoodEaten` reports no level-complete. -/
theorem tracker_level_stays_in_range_witness :
    (1 ≤ (applyOps ScoreTracker.init
        [.eat, .advance, .eat, .advance, .advance]).currentLevel ∧
      (applyOps ScoreTracker.init
        [.eat, .advance, .eat, .advance, .advance]).currentLevel ≤
        getLevelCount) ∧
    ScoreTracker.advanceToNextLevel ⟨0, 0, 0, 10, 2, 0⟩ =
      ⟨0, 0, 0, 10, 2, 0⟩ ∧
    (ScoreTracker.incrementFoodEaten ⟨0, 0, 0, 10, 1, 0⟩).1 = false :=
  ⟨tracker_level_stays_in_range.1 _,
   tracker_level_stays_in_range.2.1 _ rfl,
   tracker_level_stays_in_range.2.2 _ rfl⟩

end ChromaSnake
